import Mathlib

/-!
Shallow embedding of the order-capture workflow in `src/pedidos.py`
(a Streamlit front end over a Postgres store).

Modelling conventions, traced from the source:

* The database is a value of type `DB` holding the four relations the
  queries touch (`mesas`, `productos`, `ordenes`, `orden_items`), plus a
  counter standing for the store's id generator (the `RETURNING id` of the
  insert in `get_or_create_order`).
* Money is modelled in integer cents (`Int`), timestamps as `Nat` ticks.
  `datetime.now()` becomes an explicit `now` argument.
* A Python argument that may be `None` is an `Option`; `uuid.UUID(str(x))`
  on `x = None` raises, which the bare `except:` turns into an error report
  with no write, so an order-id argument is `Option Nat` and the `none`
  case is the caught-parse-failure path.
* Each fallible operation returns a `Bool` alongside its result: `true`
  means the `except:` branch ran (`st.error` was shown to the caller).
* SQL `ORDER BY` is modelled by `List.insertionSort` over the
  corresponding key relation; `JOIN productos ON p.id = oi.producto_id`
  by a `find?` lookup; the `oi.subtotal` column (per the data model,
  subtotal = quantity times unit price, stored or computed on read) by
  `cantidad * precio_unitario`.
-/

namespace Pedidos

/-- A row of the `mesas` relation: `SELECT id, nombre FROM mesas`. -/
structure Mesa where
  id : Nat
  nombre : String
deriving Repr, DecidableEq

/-- A row of the `productos` relation: id, nombre, precio_unitario,
categoria.  `precio_unitario` is nullable in the store, hence `Option`. -/
structure Producto where
  id : Nat
  nombre : String
  precio_unitario : Option Int
  categoria : String
deriving Repr, DecidableEq

/-- A row of the `ordenes` relation.  `estado` is `"abierto"` or
`"pagado"`; `creado_at` is set by the store when the row is inserted and
`cerrado_at` is null until the order is finalized. -/
structure Orden where
  id : Nat
  mesa_id : Nat
  personas : Nat
  estado : String
  creado_at : Nat
  cerrado_at : Option Nat
deriving Repr, DecidableEq

/-- A row of the `orden_items` relation, as inserted by `add_item`. -/
structure OrdenItem where
  orden_id : Nat
  producto_id : Nat
  cantidad : Int
  precio_unitario : Int
deriving Repr, DecidableEq

/-- The store: the four relations plus the id generator for order inserts. -/
structure DB where
  mesas : List Mesa
  productos : List Producto
  ordenes : List Orden
  orden_items : List OrdenItem
  next_id : Nat
deriving Repr, DecidableEq

/-- One row of the DataFrame returned by `get_order_items`: the columns
`producto, cantidad, precio_unitario, subtotal` of the item query. -/
structure ItemRow where
  producto : String
  cantidad : Int
  precio_unitario : Int
  subtotal : Int
deriving Repr, DecidableEq

/-- The key relation of `ORDER BY p.nombre` in the item query. -/
def rowLE (a b : ItemRow) : Prop := a.producto ≤ b.producto

instance : DecidableRel rowLE := fun a b => by
  unfold rowLE; infer_instance

instance : IsTotal ItemRow rowLE := ⟨fun a b => le_total a.producto b.producto⟩

instance : IsTrans ItemRow rowLE := ⟨fun _ _ _ h1 h2 => le_trans h1 h2⟩

/-- The key relation of `ORDER BY categoria, nombre` in the product query. -/
def prodLE (p q : Producto) : Prop :=
  p.categoria < q.categoria ∨ (p.categoria = q.categoria ∧ p.nombre ≤ q.nombre)

instance : DecidableRel prodLE := fun p q => by
  unfold prodLE; infer_instance

/-- `get_products`: `SELECT id, nombre, precio_unitario, categoria FROM
productos WHERE precio_unitario IS NOT NULL ORDER BY categoria, nombre`. -/
def get_products (db : DB) : List Producto :=
  List.insertionSort prodLE (db.productos.filter (fun p => p.precio_unitario.isSome))

/-- The `JOIN productos p ON p.id = oi.producto_id` of the item query: an
item row whose product id misses the catalog joins to nothing.  The
`subtotal` column is quantity times captured unit price. -/
def joinProducto (productos : List Producto) (it : OrdenItem) : Option ItemRow :=
  (productos.find? (fun p => p.id == it.producto_id)).map (fun p =>
    { producto := p.nombre, cantidad := it.cantidad,
      precio_unitario := it.precio_unitario,
      subtotal := it.cantidad * it.precio_unitario })

/-- `get_order_items(orden_id)`: select the order's items joined with the
catalog, ordered by product name.  A `none` order id is the
`uuid.UUID(str(None))` parse failure, caught by the `except:` branch,
which returns an empty DataFrame. -/
def get_order_items (db : DB) (orden_id : Option Nat) : List ItemRow :=
  match orden_id with
  | none => []
  | some oid =>
      List.insertionSort rowLE
        ((db.orden_items.filter (fun it => it.orden_id == oid)).filterMap
          (joinProducto db.productos))

/-- `get_order_items` with its storage fetch made explicit: the `fetch`
argument is the outcome of `pd.read_sql`, and the returned flag records
whether the `except:` branch reported an error.  On a parse failure or a
storage error the call yields an empty list with the error reported. -/
def get_order_items_run (fetch : Except String DB) (orden_id : Option Nat) :
    List ItemRow × Bool :=
  match orden_id with
  | none => ([], true)
  | some oid =>
      match fetch with
      | Except.error _ => ([], true)
      | Except.ok db => (get_order_items db (some oid), false)

/-- The running total displayed by the page: `items["subtotal"].sum()`. -/
def orderTotal (db : DB) (orden_id : Option Nat) : Int :=
  ((get_order_items db orden_id).map (fun r => r.subtotal)).sum

/-- `get_or_create_order(mesa_id, personas)`: look for an order with
`estado = 'abierto'` for the table; if found, update `personas` in place
when it differs and return the existing id; otherwise insert a fresh
`'abierto'` order and return its id.  `now` stands for the store's
`creado_at` default at insert time; `db.next_id` for the id the insert
returns. -/
def get_or_create_order (db : DB) (now : Nat) (mesa_id personas : Nat) : DB × Nat :=
  match db.ordenes.find? (fun o => o.mesa_id == mesa_id && o.estado == "abierto") with
  | some o =>
      if o.personas != personas then
        ({ db with ordenes := db.ordenes.map (fun o2 =>
            if o2.id == o.id then { o2 with personas := personas } else o2) }, o.id)
      else
        (db, o.id)
  | none =>
      ({ db with
          ordenes := db.ordenes ++
            [{ id := db.next_id, mesa_id := mesa_id, personas := personas,
               estado := "abierto", creado_at := now, cerrado_at := none }],
          next_id := db.next_id + 1 },
        db.next_id)

/-- Modelled from the spec: the `orden_items` schema is not in the
repository, and the spec states that supplying a null value to append
"fails with a ValidationError and performs no write", so the insert is
modelled as rejecting a row with a NULL in any of its columns.  A call
whose arguments are all non-null builds the row exactly as the INSERT
statement does, with no validation of quantity or price. -/
def rowOfArgs (orden_id : Nat) (producto_id : Option Nat) (cantidad precio : Option Int) :
    Option OrdenItem :=
  match producto_id, cantidad, precio with
  | some pid, some c, some p =>
      some { orden_id := orden_id, producto_id := pid, cantidad := c,
             precio_unitario := p }
  | _, _, _ => none

/-- `add_item(orden_id, producto_id, cantidad, precio)`: parse the order
id, then `INSERT INTO orden_items` the four values as given.  The source
performs no validation of `cantidad` or `precio`; the flag records
whether the `except:` branch reported an error (in which case nothing was
written). -/
def add_item (db : DB) (orden_id producto_id : Option Nat) (cantidad precio : Option Int) :
    DB × Bool :=
  match orden_id with
  | none => (db, true)
  | some oid =>
      match rowOfArgs oid producto_id cantidad precio with
      | none => (db, true)
      | some row => ({ db with orden_items := db.orden_items ++ [row] }, false)

/-- Folding `add_item` over a list of `(producto_id, cantidad, precio)`
arguments for a fixed order: one press of the add button per element. -/
def add_items (db : DB) (oid : Nat) (args : List (Nat × Int × Int)) : DB :=
  args.foldl (fun d a => (add_item d (some oid) (some a.1) (some a.2.1) (some a.2.2)).1) db

/-- `finalize_order(orden_id)`: `UPDATE ordenes SET estado = 'pagado',
cerrado_at = now WHERE id = orden_id`.  No status check: every row with
the given id is stamped, matching zero rows is not an error. -/
def finalize_order (db : DB) (now : Nat) (orden_id : Option Nat) : DB × Bool :=
  match orden_id with
  | none => (db, true)
  | some oid =>
      ({ db with ordenes := db.ordenes.map (fun o =>
          if o.id == oid then { o with estado := "pagado", cerrado_at := some now }
          else o) }, false)

/-- The WHERE clause of the item query: the stored line items of one order. -/
def itemsOf (db : DB) (oid : Nat) : List OrdenItem :=
  db.orden_items.filter (fun it => it.orden_id == oid)

/-- The row `add_items` inserts for one `(producto_id, cantidad, precio)`
argument triple. -/
def rowOf (oid : Nat) (a : Nat × Int × Int) : OrdenItem :=
  { orden_id := oid, producto_id := a.1, cantidad := a.2.1, precio_unitario := a.2.2 }

/-! ### Receipt rendering

`generar_ticket_pdf` drives FPDF: every `pdf.cell(0, 6, text, ln=True)`
call emits one line of the fixed-width Courier document.  The document is
modelled as the list of those line texts, in order; the PDF container and
the final latin-1 encoding are not modelled.  `datetime.now()` becomes the
explicit `fecha` argument.  Money stays in integer cents: `fmtMoney2`
plays the role of the `.2f` float format. -/

/-- Right-align a string in a field of width `w`, as Python
format `>w` does (never truncates). -/
def padLeft (w : Nat) (s : String) : String :=
  String.mk (List.replicate (w - s.length) ' ') ++ s

/-- Left-align a string in a field of width `w`, as Python
format `<w` does (never truncates). -/
def padRight (w : Nat) (s : String) : String :=
  s ++ String.mk (List.replicate (w - s.length) ' ')

/-- Two-digit rendering of a cents remainder (0..99). -/
def twoDigits (n : Nat) : String :=
  if n < 10 then "0" ++ toString n else toString n

/-- Render an amount of cents the way Python `.2f` renders the
corresponding decimal value: optional sign, integer part, dot, two
decimals. -/
def fmtMoney2 (cents : Int) : String :=
  (if cents < 0 then "-" else "") ++
    toString (cents.natAbs / 100) ++ "." ++ twoDigits (cents.natAbs % 100)

/-- One item line of the ticket:
quantity right-aligned in width 2, " x ", product name left-aligned in
width 20, " $ ", subtotal right-aligned in width 6 with two decimals. -/
def itemLine (r : ItemRow) : String :=
  padLeft 2 (toString r.cantidad) ++ " x " ++ padRight 20 r.producto
    ++ " $ " ++ padLeft 6 (fmtMoney2 r.subtotal)

/-- The separator rule: 40 dashes. -/
def sepLine : String := "----------------------------------------"

/-- `generar_ticket_pdf(mesa, personas, orden_id, items, total)`: banner,
table/party line, order/timestamp line, rule, one line per item, rule,
total line. -/
def generar_ticket_pdf (mesa : String) (personas : Nat) (orden_id fecha : String)
    (items : List ItemRow) (total : Int) : List String :=
  ["====== BAR XYZ ======",
   "Mesa: " ++ mesa ++ "   Personas: " ++ toString personas,
   "Orden: " ++ orden_id.take 8 ++ "   Fecha: " ++ fecha,
   sepLine]
  ++ items.map itemLine
  ++ [sepLine, "TOTAL: $ " ++ fmtMoney2 total]

/-! ### Sample data for concrete witnesses -/

/-- A small store: one table, a catalog with a null-priced product, one
open order with no items yet. -/
def dbW : DB :=
  { mesas := [{ id := 1, nombre := "Mesa 3" }],
    productos :=
      [{ id := 10, nombre := "Cerveza", precio_unitario := some 4500,
         categoria := "Bebidas" },
       { id := 11, nombre := "Nachos", precio_unitario := some 12000,
         categoria := "Comida" },
       { id := 12, nombre := "Agua", precio_unitario := none,
         categoria := "Bebidas" }],
    ordenes :=
      [{ id := 1, mesa_id := 1, personas := 4, estado := "abierto",
         creado_at := 5, cerrado_at := none }],
    orden_items := [],
    next_id := 2 }

/-- The item rows of the spec's worked scenario: 2 Cerveza at 45.00 and
1 Nachos at 120.00, in cents. -/
def wItems : List ItemRow :=
  [{ producto := "Cerveza", cantidad := 2, precio_unitario := 4500, subtotal := 9000 },
   { producto := "Nachos", cantidad := 1, precio_unitario := 12000, subtotal := 12000 }]

/-! ### C1 -/

/-- C1: resolving an order twice in succession for the same table returns
the same order identifier both times — when an open order exists it is
found again (a `personas` rewrite does not change id, table or status),
and when none exists the first call's freshly inserted open order is what
the second call finds. -/
theorem C1_resolve_idempotent (db : DB) (now1 now2 mesa_id p1 p2 : Nat) :
    (get_or_create_order (get_or_create_order db now1 mesa_id p1).1 now2 mesa_id p2).2
      = (get_or_create_order db now1 mesa_id p1).2 := by
  unfold get_or_create_order
  cases h : db.ordenes.find? (fun o => o.mesa_id == mesa_id && o.estado == "abierto") with
  | none =>
      simp only [h, List.find?_append, h, Option.none_or]
      simp only [List.find?, beq_self_eq_true, Bool.and_self]
      split <;> rfl
  | some o =>
      simp only [h]
      by_cases hp : (o.personas != p1) = true
      · simp only [hp, if_pos]
        have hfun : ((fun o : Orden => o.mesa_id == mesa_id && o.estado == "abierto") ∘
              (fun o2 => if o2.id == o.id then { o2 with personas := p1 } else o2))
            = (fun o : Orden => o.mesa_id == mesa_id && o.estado == "abierto") := by
          funext o2
          by_cases hx : (o2.id == o.id) = true <;> simp [Function.comp, hx]
        have hmap : (db.ordenes.map (fun o2 =>
            if o2.id == o.id then { o2 with personas := p1 } else o2)).find?
              (fun o : Orden => o.mesa_id == mesa_id && o.estado == "abierto")
            = some { o with personas := p1 } := by
          rw [List.find?_map, hfun, h]
          simp
        simp only [hmap]
        split <;> rfl
      · simp only [hp, if_neg, Bool.not_eq_true] at *
        simp only [hp, Bool.false_eq_true, if_false, h]
        split <;> rfl

/-! ### Shared lemmas about reading an order back -/

/-- Sorting the item rows does not change the sum of any projected column. -/
theorem sum_map_insertionSort {α : Type} (r : α → α → Prop) [DecidableRel r]
    (f : α → Int) (l : List α) :
    ((List.insertionSort r l).map f).sum = (l.map f).sum :=
  ((List.perm_insertionSort r l).map f).sum_eq

/-- A valid (all arguments non-null) `add_item` call for a product present
in the catalog shifts the order's displayed total by exactly
`cantidad * precio`. -/
theorem add_item_total_shift (db : DB) (oid pid : Nat) (c p : Int)
    (hpid : (db.productos.find? (fun q => q.id == pid)).isSome = true) :
    orderTotal (add_item db (some oid) (some pid) (some c) (some p)).1 (some oid)
      = orderTotal db (some oid) + c * p := by
  obtain ⟨q, hq⟩ := Option.isSome_iff_exists.mp hpid
  unfold orderTotal get_order_items add_item rowOfArgs
  simp only
  rw [sum_map_insertionSort, sum_map_insertionSort]
  rw [List.filter_append, List.filterMap_append]
  simp [joinProducto, hq]

/-! ### C2 -/

/-- C2: for quantity at least 1 and non-negative unit price, appending a
line item via `add_item` and recomputing the total from `get_order_items`
yields the previous total plus exactly quantity times unit price (the
product being in the catalog, as every product the page offers is). -/
theorem C2_add_item_total (db : DB) (oid pid : Nat) (c p : Int)
    (hc : 1 ≤ c) (hp : 0 ≤ p)
    (hpid : (db.productos.find? (fun q => q.id == pid)).isSome = true) :
    orderTotal (add_item db (some oid) (some pid) (some c) (some p)).1 (some oid)
      = orderTotal db (some oid) + c * p :=
  add_item_total_shift db oid pid c p hpid

/-- Concrete run of C2: adding 2 Cerveza at 45.00 to the empty open order
raises the total by 9000 cents. -/
theorem C2_add_item_total_witness :
    (1 : Int) ≤ 2 ∧ (0 : Int) ≤ 4500 ∧
    ((dbW.productos.find? (fun q => q.id == 10)).isSome = true) ∧
    orderTotal (add_item dbW (some 1) (some 10) (some 2) (some 4500)).1 (some 1)
      = orderTotal dbW (some 1) + 2 * 4500 :=
  ⟨by decide, by decide, by decide,
   C2_add_item_total dbW 1 10 2 4500 (by decide) (by decide) (by decide)⟩

/-! ### C4 -/

/-- C4 counterexample: `add_item` called with quantity 0 does not fail
and does write — the row is inserted and no error is reported, so the
claimed `ValidationError`-and-no-write behavior does not hold. -/
theorem C4_counterexample :
    (add_item dbW (some 1) (some 10) (some 0) (some 4500)).1.orden_items
        = [{ orden_id := 1, producto_id := 10, cantidad := 0, precio_unitario := 4500 }]
    ∧ (add_item dbW (some 1) (some 10) (some 0) (some 4500)).2 = false
    ∧ ¬ ((add_item dbW (some 1) (some 10) (some 0) (some 4500)).1.orden_items
          = dbW.orden_items) :=
  ⟨rfl, rfl, by decide⟩

/-- C4 amended: a call with any null argument performs no write and
reports the error, but `add_item` performs no validation of quantity or
price — a call with quantity 0 or a negative unit price succeeds,
appends the row, and shifts the total by quantity times unit price
(leaving it unchanged when quantity is 0). -/
theorem C4_add_item_amended (db : DB) (oid pid : Nat) (c p : Int)
    (hpid : (db.productos.find? (fun q => q.id == pid)).isSome = true) :
    ((add_item db none (some pid) (some c) (some p)).1 = db
      ∧ (add_item db none (some pid) (some c) (some p)).2 = true)
    ∧ ((add_item db (some oid) none (some c) (some p)).1 = db
      ∧ (add_item db (some oid) none (some c) (some p)).2 = true)
    ∧ ((add_item db (some oid) (some pid) none (some p)).1 = db
      ∧ (add_item db (some oid) (some pid) none (some p)).2 = true)
    ∧ ((add_item db (some oid) (some pid) (some c) none).1 = db
      ∧ (add_item db (some oid) (some pid) (some c) none).2 = true)
    ∧ (add_item db (some oid) (some pid) (some c) (some p)).1.orden_items
        = db.orden_items ++
          [{ orden_id := oid, producto_id := pid, cantidad := c,
             precio_unitario := p }]
    ∧ orderTotal (add_item db (some oid) (some pid) (some c) (some p)).1 (some oid)
        = orderTotal db (some oid) + c * p :=
  ⟨⟨rfl, rfl⟩, ⟨rfl, rfl⟩, ⟨rfl, rfl⟩, ⟨rfl, rfl⟩, rfl,
   add_item_total_shift db oid pid c p hpid⟩

/-- Concrete run of the amended C4: with quantity 0 the row is still
appended, and a null order id writes nothing. -/
theorem C4_add_item_amended_witness :
    ((dbW.productos.find? (fun q => q.id == 10)).isSome = true)
    ∧ (add_item dbW none (some 10) (some 0) (some 4500)).1 = dbW
    ∧ (add_item dbW (some 1) (some 10) (some 0) (some 4500)).1.orden_items
        = dbW.orden_items ++
          [{ orden_id := 1, producto_id := 10, cantidad := 0, precio_unitario := 4500 }] :=
  ⟨by decide, (C4_add_item_amended dbW 1 10 0 4500 (by decide)).1.1,
   (C4_add_item_amended dbW 1 10 0 4500 (by decide)).2.2.2.2.1⟩

/-! ### C3 -/

/-- C3: finalizing an open order marks it `pagado` and stamps a closure
time no earlier than its creation time.  The hypothesis
`o.creado_at ≤ now` is the monotone-clock reading of `datetime.now()`:
the finalize call happens no earlier than the order's insertion. -/
theorem C3_finalize_sets_paid (db : DB) (now oid : Nat) (o : Orden)
    (ho : o ∈ db.ordenes) (hid : o.id = oid) (hopen : o.estado = "abierto")
    (hclk : o.creado_at ≤ now) :
    ∃ t, { o with estado := "pagado", cerrado_at := some t }
        ∈ (finalize_order db now (some oid)).1.ordenes
      ∧ o.creado_at ≤ t := by
  refine ⟨now, ?_, hclk⟩
  unfold finalize_order
  simp only
  have hfo : { o with estado := "pagado", cerrado_at := some now }
      = (fun o2 : Orden =>
          if o2.id == oid then { o2 with estado := "pagado", cerrado_at := some now }
          else o2) o := by
    simp [hid]
  rw [hfo]
  exact List.mem_map_of_mem _ ho

/-- Concrete run of C3: finalizing the open order of the sample store at
time 7 yields the paid order closed at 7, after its creation time 5. -/
theorem C3_finalize_sets_paid_witness :
    ∃ t, ({ id := 1, mesa_id := 1, personas := 4, estado := "pagado",
            creado_at := 5, cerrado_at := some t } : Orden)
        ∈ (finalize_order dbW 7 (some 1)).1.ordenes
      ∧ 5 ≤ t :=
  C3_finalize_sets_paid dbW 7 1
    { id := 1, mesa_id := 1, personas := 4, estado := "abierto",
      creado_at := 5, cerrado_at := none }
    (by decide) rfl rfl (by decide)

/-! ### C9 -/

/-- C9: `finalize_order` checks nothing — every row with the given id
(whatever its current status, in particular an already paid one) is
re-stamped to `pagado` with the new closure time and no error is
reported, and an id matching no order leaves the store untouched without
error. -/
theorem C9_finalize_unguarded (db : DB) (now oid : Nat) :
    (finalize_order db now (some oid)).2 = false
    ∧ (∀ o ∈ db.ordenes, o.id = oid →
        { o with estado := "pagado", cerrado_at := some now }
          ∈ (finalize_order db now (some oid)).1.ordenes)
    ∧ ((∀ o ∈ db.ordenes, o.id ≠ oid) → (finalize_order db now (some oid)).1 = db) := by
  refine ⟨rfl, ?_, ?_⟩
  · intro o ho hid
    unfold finalize_order
    simp only
    have hfo : { o with estado := "pagado", cerrado_at := some now }
        = (fun o2 : Orden =>
            if o2.id == oid then { o2 with estado := "pagado", cerrado_at := some now }
            else o2) o := by
      simp [hid]
    rw [hfo]
    exact List.mem_map_of_mem _ ho
  · intro hnone
    unfold finalize_order
    simp only
    have hmap : db.ordenes.map (fun o2 : Orden =>
        if o2.id == oid then { o2 with estado := "pagado", cerrado_at := some now }
        else o2) = db.ordenes := by
      conv_rhs => rw [show db.ordenes = db.ordenes.map id from (List.map_id db.ordenes).symm]
      refine List.map_congr_left ?_
      intro o ho
      have hne : (o.id == oid) = false := by
        simpa using hnone o ho
      simp [hne]
    rw [hmap]

/-- Concrete run of C9: re-finalizing the sample order at time 9 after a
finalize at time 7 silently re-stamps it, and finalizing an unknown id 99
changes nothing. -/
theorem C9_finalize_unguarded_witness :
    (({ id := 1, mesa_id := 1, personas := 4, estado := "pagado",
        creado_at := 5, cerrado_at := some 9 } : Orden)
      ∈ (finalize_order (finalize_order dbW 7 (some 1)).1 9 (some 1)).1.ordenes)
    ∧ (finalize_order dbW 9 (some 99)).1 = dbW :=
  ⟨(C9_finalize_unguarded (finalize_order dbW 7 (some 1)).1 9 1).2.1
      { id := 1, mesa_id := 1, personas := 4, estado := "pagado",
        creado_at := 5, cerrado_at := some 7 } (by decide) rfl,
   (C9_finalize_unguarded dbW 9 99).2.2 (by decide)⟩

/-! ### C5 -/

/-- C5: `get_order_items` returns the order's joined line-item rows
sorted ascending by product name, and fails open — an unparseable order
id or a storage fetch error yields an empty list with the error reported
to the caller rather than an exception escaping. -/
theorem C5_read_sorted_fails_open (db : DB) (x : Option Nat) (oid : Nat) (e : String) :
    List.Sorted rowLE (get_order_items db x)
    ∧ get_order_items_run (Except.ok db) (some oid)
        = (get_order_items db (some oid), false)
    ∧ get_order_items_run (Except.error e) x = ([], true) := by
  refine ⟨?_, rfl, ?_⟩
  · cases x with
    | none => exact List.sorted_nil
    | some oid2 => exact List.sorted_insertionSort rowLE _
  · cases x <;> rfl

/-! ### C6 -/

/-- Folding valid appends over a list of argument triples appends exactly
the corresponding rows to the item relation and leaves the catalog
untouched. -/
theorem add_items_state (db : DB) (oid : Nat) (args : List (Nat × Int × Int)) :
    (add_items db oid args).orden_items = db.orden_items ++ args.map (rowOf oid)
    ∧ (add_items db oid args).productos = db.productos := by
  induction args generalizing db with
  | nil => simp [add_items]
  | cons a t ih =>
      have hstep : add_items db oid (a :: t)
          = add_items { db with orden_items := db.orden_items ++ [rowOf oid a] } oid t := rfl
      rw [hstep]
      obtain ⟨h1, h2⟩ := ih { db with orden_items := db.orden_items ++ [rowOf oid a] }
      refine ⟨?_, h2⟩
      rw [h1]
      simp [List.append_assoc]

/-- A `filterMap` whose function hits on every member keeps the length. -/
theorem length_filterMap_of_isSome {α β : Type} (f : α → Option β) (l : List α)
    (h : ∀ x ∈ l, (f x).isSome = true) : (l.filterMap f).length = l.length := by
  induction l with
  | nil => rfl
  | cons a t ih =>
      obtain ⟨b, hb⟩ := Option.isSome_iff_exists.mp (h a (List.mem_cons_self a t))
      rw [List.filterMap_cons, hb]
      simp only [List.length_cons]
      rw [ih (fun x hx => h x (List.mem_cons_of_mem a hx))]

/-- C6: `add_item` never merges lines — after n appends to an order that
had none (same product repeated or not), the store holds exactly the n
appended rows, one per call, and `get_order_items` returns one row per
stored item (n of them, for cataloged products): summation happens only
at the total level. -/
theorem C6_append_no_merge (db : DB) (oid : Nat) (args : List (Nat × Int × Int))
    (h0 : itemsOf db oid = [])
    (hcat : ∀ a ∈ args, (db.productos.find? (fun q => q.id == a.1)).isSome = true) :
    itemsOf (add_items db oid args) oid = args.map (rowOf oid)
    ∧ (itemsOf (add_items db oid args) oid).length = args.length
    ∧ (get_order_items (add_items db oid args) (some oid)).length = args.length := by
  obtain ⟨hitems, hprods⟩ := add_items_state db oid args
  have hfil : itemsOf (add_items db oid args) oid = args.map (rowOf oid) := by
    unfold itemsOf at h0 ⊢
    rw [hitems, List.filter_append, h0, List.nil_append]
    refine List.filter_eq_self.mpr ?_
    intro x hx
    obtain ⟨a, _, rfl⟩ := List.mem_map.mp hx
    simp [rowOf]
  refine ⟨hfil, by rw [hfil]; simp, ?_⟩
  show (List.insertionSort rowLE
      (((add_items db oid args).orden_items.filter (fun it => it.orden_id == oid)).filterMap
        (joinProducto (add_items db oid args).productos))).length = args.length
  rw [List.length_insertionSort]
  have hfil2 : (add_items db oid args).orden_items.filter (fun it => it.orden_id == oid)
      = args.map (rowOf oid) := hfil
  rw [hfil2, hprods]
  rw [length_filterMap_of_isSome]
  · exact List.length_map args (rowOf oid)
  · intro x hx
    obtain ⟨a, ha, rfl⟩ := List.mem_map.mp hx
    have := hcat a ha
    simp only [joinProducto, rowOf]
    simpa using this

/-- Concrete run of C6: adding Cerveza twice to the fresh order stores
two separate rows, and the read side shows two rows. -/
theorem C6_append_no_merge_witness :
    itemsOf (add_items dbW 1 [(10, 2, 4500), (10, 1, 4500)]) 1
      = [{ orden_id := 1, producto_id := 10, cantidad := 2, precio_unitario := 4500 },
         { orden_id := 1, producto_id := 10, cantidad := 1, precio_unitario := 4500 }]
    ∧ (get_order_items (add_items dbW 1 [(10, 2, 4500), (10, 1, 4500)]) (some 1)).length = 2 :=
  ⟨(C6_append_no_merge dbW 1 [(10, 2, 4500), (10, 1, 4500)] (by decide) (by decide)).1,
   (C6_append_no_merge dbW 1 [(10, 2, 4500), (10, 1, 4500)] (by decide) (by decide)).2.2⟩

/-! ### C10 -/

/-- C10: the catalog reader only returns products whose unit price is
non-null (the `WHERE precio_unitario IS NOT NULL` clause), so every
product the page can offer to `add_item` has a defined price. -/
theorem C10_products_price_nonnull (db : DB) (p : Producto)
    (hp : p ∈ get_products db) : p.precio_unitario ≠ none := by
  unfold get_products at hp
  rw [List.mem_insertionSort] at hp
  have hs := (List.mem_filter.mp hp).2
  simpa [Option.isSome_iff_ne_none] using hs

/-- Concrete run of C10: Cerveza is returned by `get_products` on the
sample store and its price is defined; the null-priced Agua is filtered
out by construction. -/
theorem C10_products_price_nonnull_witness :
    (({ id := 10, nombre := "Cerveza", precio_unitario := some 4500,
        categoria := "Bebidas" } : Producto) ∈ get_products dbW)
    ∧ ({ id := 10, nombre := "Cerveza", precio_unitario := some 4500,
         categoria := "Bebidas" } : Producto).precio_unitario ≠ none := by
  have hmem : ({ id := 10, nombre := "Cerveza", precio_unitario := some 4500,
                 categoria := "Bebidas" } : Producto) ∈ get_products dbW := by
    unfold get_products
    rw [List.mem_insertionSort]
    decide
  exact ⟨hmem, C10_products_price_nonnull dbW _ hmem⟩

/-! ### C7 -/

/-- C7: a ticket for N item rows is exactly N item lines (each in the
fixed quantity / " x " / name / " $ " / subtotal format of `itemLine`)
between the four header lines and the two footer lines, and when the
passed total is the sum of the item subtotals — which is how the page
computes it — the printed total line shows exactly that sum. -/
theorem C7_ticket_layout (mesa : String) (personas : Nat) (oid fecha : String)
    (items : List ItemRow) (total : Int)
    (htot : total = (items.map (fun r => r.subtotal)).sum) :
    (generar_ticket_pdf mesa personas oid fecha items total).length = items.length + 6
    ∧ (∀ i, ∀ h : i < items.length,
        (generar_ticket_pdf mesa personas oid fecha items total).get? (4 + i)
          = some (itemLine (items.get ⟨i, h⟩)))
    ∧ (generar_ticket_pdf mesa personas oid fecha items total).get? (4 + items.length)
        = some sepLine
    ∧ (generar_ticket_pdf mesa personas oid fecha items total).get? (5 + items.length)
        = some ("TOTAL: $ " ++ fmtMoney2 ((items.map (fun r => r.subtotal)).sum)) := by
  subst htot
  unfold generar_ticket_pdf
  refine ⟨?_, ?_, ?_, ?_⟩
  · simp only [List.length_append, List.length_map, List.length_cons, List.length_nil]
    omega
  · intro i h
    have h4 : 4 + i = i + 1 + 1 + 1 + 1 := by omega
    rw [h4]
    simp only [List.cons_append, List.get?_cons_succ, List.nil_append]
    rw [List.get?_append (by simpa using h)]
    rw [List.get?_map, List.get?_eq_get h]
    rfl
  · have h4 : 4 + items.length = items.length + 1 + 1 + 1 + 1 := by omega
    rw [h4]
    simp only [List.cons_append, List.get?_cons_succ]
    rw [List.get?_append_right (by simp)]
    simp
  · have h5 : 5 + items.length = items.length + 1 + 1 + 1 + 1 + 1 := by omega
    rw [h5]
    simp only [List.cons_append, List.get?_cons_succ]
    rw [List.get?_append_right (by simp)]
    simp

/-- Concrete run of C7 on the spec scenario (2 Cerveza at 45.00, 1
Nachos at 120.00, total 210.00): the ticket has 2 item lines plus 6
fixed lines. -/
theorem C7_ticket_layout_witness :
    (21000 : Int) = (wItems.map (fun r => r.subtotal)).sum
    ∧ (generar_ticket_pdf "Mesa 3" 4 "deadbeef-1234" "2026-10-12 12:00" wItems 21000).length
        = wItems.length + 6 :=
  ⟨by decide,
   (C7_ticket_layout "Mesa 3" 4 "deadbeef-1234" "2026-10-12 12:00" wItems 21000 (by decide)).1⟩

/-! ### C8 -/

/-- C8: rendering is deterministic up to the generation timestamp — two
tickets for identical arguments agree on every line except line index 2,
the header line that embeds the timestamp after the order id. -/
theorem C8_ticket_deterministic (mesa : String) (personas : Nat) (oid f1 f2 : String)
    (items : List ItemRow) (total : Int) :
    (∀ i, i ≠ 2 →
      (generar_ticket_pdf mesa personas oid f1 items total).get? i
        = (generar_ticket_pdf mesa personas oid f2 items total).get? i)
    ∧ (generar_ticket_pdf mesa personas oid f1 items total).get? 2
        = some ("Orden: " ++ oid.take 8 ++ "   Fecha: " ++ f1) := by
  constructor
  · intro i hi
    unfold generar_ticket_pdf
    cases i with
    | zero => simp only [List.cons_append, List.get?_cons_zero]
    | succ j =>
      cases j with
      | zero => simp only [List.cons_append, List.get?_cons_succ, List.get?_cons_zero]
      | succ k =>
        cases k with
        | zero => exact absurd rfl hi
        | succ n => simp only [List.cons_append, List.get?_cons_succ]
  · unfold generar_ticket_pdf
    simp only [List.cons_append, List.get?_cons_succ, List.get?_cons_zero]

/-- Concrete run of C8: two tickets half an hour apart agree on their
first line. -/
theorem C8_ticket_deterministic_witness :
    (generar_ticket_pdf "Mesa 3" 4 "deadbeef-1234" "2026-10-12 12:00" wItems 21000).get? 0
      = (generar_ticket_pdf "Mesa 3" 4 "deadbeef-1234" "2026-10-12 12:30" wItems 21000).get? 0 :=
  (C8_ticket_deterministic "Mesa 3" 4 "deadbeef-1234" "2026-10-12 12:00" "2026-10-12 12:30"
    wItems 21000).1 0 (by decide)

end Pedidos
